import Mathlib

/-!
Verification of the FFI bridging layer of the `open62541` Rust crate.

The development shallowly embeds the relevant Rust source files:

* `src/client.rs` — client builder, connect, and the logger bridge
  (`set_default_logger` with its nested trampoline `log_c`);
* `src/ua/data_types/data_source.rs` — the raw-mode `DataSource` wrapper
  (`new`, `into_raw`, `Clone`);
* `examples/cpu_temperature_data_source.rs` — the trait-dispatched
  read-only-in-effect data source `ControllerDataSource`.

Machine integers are modelled as `Nat`; byte strings crossing the FFI
boundary are modelled as `List Nat` of byte values; native `f32`
arithmetic in the example's temperature generator is modelled over `ℚ`
(no claim below depends on float rounding); effects such as invoking a
teardown callback are modelled as explicit event lists.
-/

namespace Open62541

/-! ## Native log levels and structured severities

The native `UA_LogLevel` enumeration comes from the `open62541-sys`
bindings (external to the bridging code). Modelled from the spec: the six
native levels are ordered least-to-most severe as Trace, Debug, Info,
Warning, Error, Fatal; we use the native library's numeric spacing
(distinct, increasing values). -/

def UA_LOGLEVEL_TRACE : Nat := 100

def UA_LOGLEVEL_DEBUG : Nat := 200

def UA_LOGLEVEL_INFO : Nat := 300

def UA_LOGLEVEL_WARNING : Nat := 400

def UA_LOGLEVEL_ERROR : Nat := 500

def UA_LOGLEVEL_FATAL : Nat := 600

/-- Severities of the structured logging facility (the Rust `log` crate):
`error!`, `warn!`, `info!`, `debug!`, `trace!`. There is no fatal
severity. -/
inductive LogSeverity where
  | error
  | warn
  | info
  | debug
  | trace
  deriving DecidableEq, Repr

/-! ## Lossy UTF-8 decoding (`CStr::to_string_lossy`)

The trampoline `log_c` converts the received C string with
`CStr::from_ptr(msg).to_string_lossy()`. We model the message received
from the native side as its byte content up to (and not including) the
NUL terminator, and `to_string_lossy` as a byte-level function: valid
UTF-8 passes through unchanged, each maximal ill-formed subpart is
replaced by the replacement character U+FFFD (bytes `EF BF BD`),
following Rust's `Utf8Chunks` policy. -/

/-- UTF-8 encoding of the replacement character U+FFFD. -/
def replacementBytes : List Nat := [0xEF, 0xBF, 0xBD]

/-- Tests for a UTF-8 continuation byte (`0x80 ..= 0xBF`). -/
def isCont (b : Nat) : Bool := 0x80 ≤ b && b ≤ 0xBF

/-- Tests the valid second byte of a three-byte sequence given its lead
byte: `(E0, A0..BF)`, `(E1..EC, 80..BF)`, `(ED, 80..9F)`,
`(EE..EF, 80..BF)`. -/
def validSecond3 (b c : Nat) : Bool :=
  (b == 0xE0 && 0xA0 ≤ c && c ≤ 0xBF) ||
  (0xE1 ≤ b && b ≤ 0xEC && isCont c) ||
  (b == 0xED && 0x80 ≤ c && c ≤ 0x9F) ||
  (0xEE ≤ b && b ≤ 0xEF && isCont c)

/-- Tests the valid second byte of a four-byte sequence given its lead
byte: `(F0, 90..BF)`, `(F1..F3, 80..BF)`, `(F4, 80..8F)`. -/
def validSecond4 (b c : Nat) : Bool :=
  (b == 0xF0 && 0x90 ≤ c && c ≤ 0xBF) ||
  (0xF1 ≤ b && b ≤ 0xF3 && isCont c) ||
  (b == 0xF4 && 0x80 ≤ c && c ≤ 0x8F)

/-- Byte-level model of Rust's lossy UTF-8 conversion: well-formed
sequences are copied unchanged; a maximal ill-formed subpart (the bytes
consumed before the offending byte, or a lone bad byte, or an incomplete
sequence at the end of input) becomes one replacement character. -/
def toStringLossy : List Nat → List Nat
  | [] => []
  | b :: rest =>
    if b ≤ 0x7F then
      b :: toStringLossy rest
    else if 0xC2 ≤ b && b ≤ 0xDF then
      match rest with
      | [] => replacementBytes
      | c :: rest2 =>
        if isCont c then b :: c :: toStringLossy rest2
        else replacementBytes ++ toStringLossy (c :: rest2)
    else if 0xE0 ≤ b && b ≤ 0xEF then
      match rest with
      | [] => replacementBytes
      | c :: rest2 =>
        if validSecond3 b c then
          match rest2 with
          | [] => replacementBytes
          | d :: rest3 =>
            if isCont d then b :: c :: d :: toStringLossy rest3
            else replacementBytes ++ toStringLossy (d :: rest3)
        else replacementBytes ++ toStringLossy (c :: rest2)
    else if 0xF0 ≤ b && b ≤ 0xF4 then
      match rest with
      | [] => replacementBytes
      | c :: rest2 =>
        if validSecond4 b c then
          match rest2 with
          | [] => replacementBytes
          | d :: rest3 =>
            if isCont d then
              match rest3 with
              | [] => replacementBytes
              | e :: rest4 =>
                if isCont e then b :: c :: d :: e :: toStringLossy rest4
                else replacementBytes ++ toStringLossy (e :: rest4)
            else replacementBytes ++ toStringLossy (d :: rest3)
        else replacementBytes ++ toStringLossy (c :: rest2)
    else
      replacementBytes ++ toStringLossy rest

/-- Decides whether a byte list is well-formed UTF-8, with the same
sequence classification as `toStringLossy`. -/
def utf8Valid : List Nat → Bool
  | [] => true
  | b :: rest =>
    if b ≤ 0x7F then
      utf8Valid rest
    else if 0xC2 ≤ b && b ≤ 0xDF then
      match rest with
      | [] => false
      | c :: rest2 =>
        if isCont c then utf8Valid rest2
        else false
    else if 0xE0 ≤ b && b ≤ 0xEF then
      match rest with
      | [] => false
      | c :: rest2 =>
        if validSecond3 b c then
          match rest2 with
          | [] => false
          | d :: rest3 =>
            if isCont d then utf8Valid rest3
            else false
        else false
    else if 0xF0 ≤ b && b ≤ 0xF4 then
      match rest with
      | [] => false
      | c :: rest2 =>
        if validSecond4 b c then
          match rest2 with
          | [] => false
          | d :: rest3 =>
            if isCont d then
              match rest3 with
              | [] => false
              | e :: rest4 =>
                if isCont e then utf8Valid rest4
                else false
            else false
        else false
    else false

/-- On well-formed UTF-8 input the lossy conversion is the identity. -/
theorem toStringLossy_of_utf8Valid :
    ∀ l : List Nat, utf8Valid l = true → toStringLossy l = l := by
  intro l
  induction l using toStringLossy.induct with
  | case1 =>
    intro _
    rfl
  | case2 b rest hb ih =>
    intro hv
    rw [utf8Valid.eq_def] at hv
    rw [toStringLossy.eq_def]
    simp only [hb, if_pos] at hv ⊢
    exact congrArg (b :: ·) (ih hv)
  | case3 b hb hb2 =>
    intro hv
    rw [utf8Valid.eq_def] at hv
    simp [hb, hb2] at hv
  | case4 b hb hb2 c rest2 hc ih =>
    intro hv
    rw [utf8Valid.eq_def] at hv
    rw [toStringLossy.eq_def]
    simp only [hb, hb2, hc, if_pos, if_neg, ite_true, ite_false] at hv ⊢
    simp [hc, ih hv]
  | case5 b hb hb2 c rest2 hc ih =>
    intro hv
    rw [utf8Valid.eq_def] at hv
    simp [hb, hb2, hc] at hv
  | case6 b hb hb2 hb3 =>
    intro hv
    rw [utf8Valid.eq_def] at hv
    simp [hb, hb2, hb3] at hv
  | case7 b hb hb2 hb3 c hc =>
    intro hv
    rw [utf8Valid.eq_def] at hv
    simp [hb, hb2, hb3, hc] at hv
  | case8 b hb hb2 hb3 c hc d rest2 hd ih =>
    intro hv
    rw [utf8Valid.eq_def] at hv
    rw [toStringLossy.eq_def]
    simp only [hb, hb2, hb3, hc, hd] at hv ⊢
    simp [hc, hd, ih (by simpa [hc, hd] using hv)]
  | case9 b hb hb2 hb3 c hc d rest2 hd ih =>
    intro hv
    rw [utf8Valid.eq_def] at hv
    simp [hb, hb2, hb3, hc, hd] at hv
  | case10 b hb hb2 hb3 c rest2 hc ih =>
    intro hv
    rw [utf8Valid.eq_def] at hv
    simp [hb, hb2, hb3, hc] at hv
  | case11 b hb hb2 hb3 hb4 =>
    intro hv
    rw [utf8Valid.eq_def] at hv
    simp [hb, hb2, hb3, hb4] at hv
  | case12 b hb hb2 hb3 hb4 c hc =>
    intro hv
    rw [utf8Valid.eq_def] at hv
    simp [hb, hb2, hb3, hb4, hc] at hv
  | case13 b hb hb2 hb3 hb4 c hc d hd =>
    intro hv
    rw [utf8Valid.eq_def] at hv
    simp [hb, hb2, hb3, hb4, hc, hd] at hv
  | case14 b hb hb2 hb3 hb4 c hc d hd e rest2 he ih =>
    intro hv
    rw [utf8Valid.eq_def] at hv
    rw [toStringLossy.eq_def]
    simp only [hb, hb2, hb3, hb4, hc, hd, he] at hv ⊢
    simp [hc, hd, he, ih (by simpa [hc, hd, he] using hv)]
  | case15 b hb hb2 hb3 hb4 c hc d hd e rest2 he ih =>
    intro hv
    rw [utf8Valid.eq_def] at hv
    simp [hb, hb2, hb3, hb4, hc, hd, he] at hv
  | case16 b hb hb2 hb3 hb4 c hc d rest2 hd ih =>
    intro hv
    rw [utf8Valid.eq_def] at hv
    simp [hb, hb2, hb3, hb4, hc, hd] at hv
  | case17 b hb hb2 hb3 hb4 c rest2 hc ih =>
    intro hv
    rw [utf8Valid.eq_def] at hv
    simp [hb, hb2, hb3, hb4, hc] at hv
  | case18 b rest hb hb2 hb3 hb4 ih =>
    intro hv
    rw [utf8Valid.eq_def] at hv
    simp [hb, hb2, hb3, hb4] at hv

/-! ## The logger trampoline `log_c`

Embeds the nested function `log_c` of `set_default_logger` in
`src/client.rs`. It receives the native level and the message bytes (the
C string content up to the NUL terminator), decodes the message with the
lossy conversion, then dispatches on the level with an if-else chain
checking Fatal, Error, Warning, Info, Debug, Trace in that order; any
other level falls into the trailing else branch which emits nothing.
The result is the one structured record emitted (severity and forwarded
text), or `none` when nothing is emitted. -/

def logC (level : Nat) (msg : List Nat) : Option (LogSeverity × List Nat) :=
  let m := toStringLossy msg
  if level = UA_LOGLEVEL_FATAL then some (LogSeverity.error, m)
  else if level = UA_LOGLEVEL_ERROR then some (LogSeverity.error, m)
  else if level = UA_LOGLEVEL_WARNING then some (LogSeverity.warn, m)
  else if level = UA_LOGLEVEL_INFO then some (LogSeverity.info, m)
  else if level = UA_LOGLEVEL_DEBUG then some (LogSeverity.debug, m)
  else if level = UA_LOGLEVEL_TRACE then some (LogSeverity.trace, m)
  else none

/-- C2: for each of the six native log levels the trampoline forwards the
message to exactly one structured severity, following the fixed table
Trace→Trace, Debug→Debug, Info→Info, Warning→Warn, Error→Error,
Fatal→Error; the Fatal-level call produces an Error-severity record (the
structured facility `LogSeverity` has no fatal severity, so no distinct
Fatal record exists). -/
theorem logC_maps_levels_per_fixed_table (msg : List Nat) :
    logC UA_LOGLEVEL_TRACE msg = some (LogSeverity.trace, toStringLossy msg) ∧
    logC UA_LOGLEVEL_DEBUG msg = some (LogSeverity.debug, toStringLossy msg) ∧
    logC UA_LOGLEVEL_INFO msg = some (LogSeverity.info, toStringLossy msg) ∧
    logC UA_LOGLEVEL_WARNING msg = some (LogSeverity.warn, toStringLossy msg) ∧
    logC UA_LOGLEVEL_ERROR msg = some (LogSeverity.error, toStringLossy msg) ∧
    logC UA_LOGLEVEL_FATAL msg = some (LogSeverity.error, toStringLossy msg) := by
  refine ⟨?_, ?_, ?_, ?_, ?_, ?_⟩ <;>
    simp [logC, UA_LOGLEVEL_TRACE, UA_LOGLEVEL_DEBUG, UA_LOGLEVEL_INFO,
      UA_LOGLEVEL_WARNING, UA_LOGLEVEL_ERROR, UA_LOGLEVEL_FATAL]

/-- C6 counterexample: the native message consisting of the single byte
`0xFF` (a NUL-free C string that is not valid UTF-8) is forwarded at
Error level as the replacement character `EF BF BD`, not byte-for-byte as
`[0xFF]`: `to_string_lossy` is lossy. -/
theorem logC_not_byte_for_byte_on_invalid_utf8 :
    logC UA_LOGLEVEL_ERROR [0xFF] = some (LogSeverity.error, replacementBytes) ∧
    logC UA_LOGLEVEL_ERROR [0xFF] ≠ some (LogSeverity.error, [0xFF]) := by
  decide

/-- C6 amended: whenever the trampoline forwards a structured record for
a message that is well-formed UTF-8, the forwarded text is byte-for-byte
the text received from the native side; ill-formed sequences (outside
this hypothesis) are replaced by U+FFFD. -/
theorem logC_forwards_valid_utf8_unchanged (level : Nat) (msg : List Nat)
    (hv : utf8Valid msg = true) (sev : LogSeverity) (out : List Nat)
    (h : logC level msg = some (sev, out)) : out = msg := by
  have hm := toStringLossy_of_utf8Valid msg hv
  simp only [logC] at h
  repeat' split at h
  all_goals simp_all

/-- C6 amended, witness: the valid-UTF-8 message "Hi" at Info level is
forwarded unchanged. -/
theorem logC_forwards_valid_utf8_unchanged_witness :
    utf8Valid [72, 105] = true ∧ ([72, 105] : List Nat) = [72, 105] :=
  ⟨by decide,
   logC_forwards_valid_utf8_unchanged UA_LOGLEVEL_INFO [72, 105] (by decide)
     LogSeverity.info [72, 105] (by decide)⟩

/-- C10: a native level that is none of the six named levels falls into
the trailing else branch of the trampoline: no structured record of any
severity is emitted. -/
theorem logC_discards_unknown_levels (level : Nat) (msg : List Nat)
    (h : level ∉ [UA_LOGLEVEL_TRACE, UA_LOGLEVEL_DEBUG, UA_LOGLEVEL_INFO,
      UA_LOGLEVEL_WARNING, UA_LOGLEVEL_ERROR, UA_LOGLEVEL_FATAL]) :
    logC level msg = none := by
  simp only [List.mem_cons, List.not_mem_nil, or_false, not_or] at h
  obtain ⟨h1, h2, h3, h4, h5, h6⟩ := h
  simp [logC, h1, h2, h3, h4, h5, h6]

/-- C10 witness: the out-of-range level 0 with message "A" produces no
structured record. -/
theorem logC_discards_unknown_levels_witness :
    (0 : Nat) ∉ [UA_LOGLEVEL_TRACE, UA_LOGLEVEL_DEBUG, UA_LOGLEVEL_INFO,
      UA_LOGLEVEL_WARNING, UA_LOGLEVEL_ERROR, UA_LOGLEVEL_FATAL] ∧
    logC 0 [65] = none :=
  ⟨by decide, logC_discards_unknown_levels 0 [65] (by decide)⟩

/-! ## Client configuration and the logger bridge install

Embeds `set_default_logger` and `ClientBuilder::default` from
`src/client.rs`. Native function pointers for the `log` slot are
modelled as references distinguishing the bridge trampoline from the
native default logger; `clear` teardown callbacks are modelled as opaque
ids; context pointers are modelled as addresses with null = 0. Invoking
a teardown callback is recorded as an explicit event. -/

/-- Identity of the function installed in the `log` slot of a native
logger. -/
inductive LogCallbackRef where
  | bridge
  | nativeDefault
  | other (id : Nat)
  deriving DecidableEq, Repr

/-- Null pointer address for logger contexts. -/
def nullPtr : Nat := 0

/-- The native `UA_Logger` table inside a client configuration: a log
callback, an optional teardown (clear) callback, and a context pointer. -/
structure UA_Logger where
  log : Option LogCallbackRef
  clear : Option Nat
  context : Nat
  deriving DecidableEq, Repr

/-- The native `UA_ClientConfig`; only the logger field is relevant to
the claims. -/
structure UA_ClientConfig where
  logger : UA_Logger
  deriving DecidableEq, Repr

/-- Observable side effects of configuration calls. -/
inductive Event where
  | clearInvoked (cb : Nat) (context : Nat)
  deriving DecidableEq, Repr

/-- Embeds `set_default_logger` (`src/client.rs`): first invokes the
existing logger's `clear` callback on its context when present, then sets
`clear` to none, `log` to the `log_c` trampoline, and `context` to null.
Returns the updated configuration and the list of teardown invocations
performed. -/
def set_default_logger (config : UA_ClientConfig) :
    UA_ClientConfig × List Event :=
  let events :=
    match config.logger.clear with
    | some cb => [Event.clearInvoked cb config.logger.context]
    | none => []
  ({ config with
      logger :=
        { log := some LogCallbackRef.bridge, clear := none,
          context := nullPtr } },
   events)

/-- Modelled from the spec: the native apply-library-defaults step
`UA_ClientConfig_setDefault` (provided by the underlying native stack,
its source is not part of this repository) installs its own default
logger only when none is set, and otherwise keeps the configured
logger. -/
def UA_ClientConfig_setDefault (config : UA_ClientConfig) : UA_ClientConfig :=
  match config.logger.log with
  | none =>
    { config with
        logger :=
          { log := some LogCallbackRef.nativeDefault, clear := none,
            context := nullPtr } }
  | some _ => config

/-- Embeds `ClientBuilder::default` (`src/client.rs`): starting from the
freshly allocated client's configuration, first installs the logger
bridge with `set_default_logger`, then applies the native library
defaults. -/
def ClientBuilder.mkDefault (initial : UA_ClientConfig) :
    UA_ClientConfig × List Event :=
  let s := set_default_logger initial
  (UA_ClientConfig_setDefault s.1, s.2)

/-- C7: installing the logger bridge invokes the previously installed
clear callback on its context exactly when one is present, and leaves the
configuration's logger with the bridge trampoline as log function, no
clear callback, and a null context — whatever logger was installed
before. -/
theorem set_default_logger_clears_then_installs_bridge
    (config : UA_ClientConfig) :
    (set_default_logger config).1.logger =
      { log := some LogCallbackRef.bridge, clear := none,
        context := nullPtr } ∧
    (set_default_logger config).2 =
      (match config.logger.clear with
       | some cb => [Event.clearInvoked cb config.logger.context]
       | none => []) := by
  constructor <;> simp [set_default_logger]

/-- C3: building the default client configuration installs the logger
bridge strictly before the native apply-library-defaults step, so the
logger held in the built configuration is the bridge trampoline and not
the native default logger. -/
theorem clientBuilder_default_keeps_bridge_logger
    (initial : UA_ClientConfig) :
    (ClientBuilder.mkDefault initial).1.logger.log =
      some LogCallbackRef.bridge ∧
    (ClientBuilder.mkDefault initial).1.logger.log ≠
      some LogCallbackRef.nativeDefault := by
  constructor <;>
    simp [ClientBuilder.mkDefault, UA_ClientConfig_setDefault,
      set_default_logger]

/-! ## Client connect

Embeds `ClientBuilder::connect` (`src/client.rs`). The endpoint URL is a
byte list; `CString::new` panics (via `expect`) when the URL contains an
embedded NUL byte. The native `UA_Client_connect` call is external; its
returned status code is passed in as a parameter. On a non-Good status
the function returns an error carrying that exact status; otherwise it
returns the connected client (wrapping the builder's native handle). -/

/-- The native Good status code. -/
def UA_STATUSCODE_GOOD : Nat := 0

/-- The native BadInternalError status code. -/
def UA_STATUSCODE_BADINTERNALERROR : Nat := 0x80020000

/-- The crate's error type for client operations, carrying the native
status code (`Error::new(result)`). -/
structure Error where
  code : Nat
  deriving DecidableEq, Repr

/-- Constructs an `Error` from a native status code. -/
def Error.new (code : Nat) : Error := ⟨code⟩

/-- Outcome of `ClientBuilder::connect`: a connected client, an error
result, or a panic raised before the native call. -/
inductive ConnectOutcome where
  | ok (config : UA_ClientConfig)
  | err (e : Error)
  | panicked
  deriving DecidableEq, Repr

/-- Embeds `ClientBuilder::connect` (`src/client.rs`): converts the URL
to a C string — panicking on an embedded NUL byte — then performs the
native connect call (whose status is the `nativeStatus` parameter) and
returns an error carrying that status unless it is Good. -/
def ClientBuilder.connect (builder : UA_ClientConfig)
    (endpoint_url : List Nat) (nativeStatus : Nat) : ConnectOutcome :=
  if endpoint_url.contains 0 then ConnectOutcome.panicked
  else if nativeStatus ≠ UA_STATUSCODE_GOOD then
    ConnectOutcome.err (Error.new nativeStatus)
  else ConnectOutcome.ok builder

/-- An arbitrary concrete client configuration for closed statements. -/
def emptyConfig : UA_ClientConfig := ⟨⟨none, none, 0⟩⟩

/-- C4: for every NUL-free endpoint URL, connect returns the connected
client exactly when the native connect call returns the Good status, and
on any non-Good native status it returns an error carrying that exact
status code (no connected client state). -/
theorem connect_ok_iff_native_good (builder : UA_ClientConfig)
    (url : List Nat) (s : Nat) (h : ¬ url.contains 0 = true) :
    (ClientBuilder.connect builder url s = ConnectOutcome.ok builder ↔
      s = UA_STATUSCODE_GOOD) ∧
    (s ≠ UA_STATUSCODE_GOOD →
      ClientBuilder.connect builder url s =
        ConnectOutcome.err (Error.new s)) := by
  unfold ClientBuilder.connect
  rw [if_neg h]
  refine ⟨⟨fun hc => ?_, fun hs => ?_⟩, fun hs => ?_⟩
  · by_contra hs
    rw [if_pos hs] at hc
    exact ConnectOutcome.noConfusion hc
  · rw [if_neg (fun hn => hn hs)]
  · rw [if_pos hs]

/-- C4 witness: with the NUL-free URL "o" and the Good native status the
characterization holds concretely. -/
theorem connect_ok_iff_native_good_witness :
    ¬ ([111] : List Nat).contains 0 = true ∧
    ((ClientBuilder.connect emptyConfig [111] UA_STATUSCODE_GOOD =
        ConnectOutcome.ok emptyConfig ↔
        UA_STATUSCODE_GOOD = UA_STATUSCODE_GOOD) ∧
      (UA_STATUSCODE_GOOD ≠ UA_STATUSCODE_GOOD →
        ClientBuilder.connect emptyConfig [111] UA_STATUSCODE_GOOD =
          ConnectOutcome.err (Error.new UA_STATUSCODE_GOOD))) :=
  ⟨by decide,
   connect_ok_iff_native_good emptyConfig [111] UA_STATUSCODE_GOOD
     (by decide)⟩

/-- C5 counterexample: connecting with the endpoint URL "h\x00" (an
embedded NUL byte) panics via the `expect` on `CString::new` — it does
not produce an InternalError result. -/
theorem connect_nul_url_panics_not_internal_error :
    ClientBuilder.connect emptyConfig [104, 0] UA_STATUSCODE_GOOD =
      ConnectOutcome.panicked ∧
    ClientBuilder.connect emptyConfig [104, 0] UA_STATUSCODE_GOOD ≠
      ConnectOutcome.err (Error.new UA_STATUSCODE_BADINTERNALERROR) := by
  decide

/-- C5 amended: an endpoint URL containing an embedded NUL byte makes
`connect` panic (as its documentation states) before the native call;
the violation is not converted to an InternalError result. -/
theorem connect_panics_on_embedded_nul (builder : UA_ClientConfig)
    (url : List Nat) (s : Nat) (h : url.contains 0 = true) :
    ClientBuilder.connect builder url s = ConnectOutcome.panicked := by
  unfold ClientBuilder.connect
  rw [if_pos h]

/-- C5 amended, witness: the URL "h\x00" panics concretely. -/
theorem connect_panics_on_embedded_nul_witness :
    ([104, 0] : List Nat).contains 0 = true ∧
    ClientBuilder.connect emptyConfig [104, 0] 5 =
      ConnectOutcome.panicked :=
  ⟨by decide, connect_panics_on_embedded_nul emptyConfig [104, 0] 5 (by decide)⟩

/-! ## The raw-mode `DataSource` wrapper

Embeds `src/ua/data_types/data_source.rs`: a safe wrapper struct around
the native `UA_DataSource` table, which holds one optional read and one
optional write function pointer. Function pointers are modelled as
opaque addresses (`Nat`); the bridge never inspects them. -/

/-- The native `UA_DataSource` function-pointer table. -/
structure UA_DataSource where
  read : Option Nat
  write : Option Nat
  deriving DecidableEq, Repr

/-- Safe wrapper struct around `UA_DataSource` (tuple struct field 0). -/
structure ua.DataSource where
  raw : UA_DataSource
  deriving DecidableEq, Repr

/-- Embeds `DataSource::new`: stores the two optional native callbacks
unchanged. -/
def ua.DataSource.new (read write : Option Nat) : ua.DataSource :=
  ⟨{ read := read, write := write }⟩

/-- Embeds `DataSource::inner`: borrows the wrapped table. -/
def ua.DataSource.inner (self : ua.DataSource) : UA_DataSource := self.raw

/-- Embeds `DataSource::into_raw`: moves the wrapped table out of the
wrapper (the `ptr::read` + `forget` dance only avoids running `Drop`; the
value itself is returned unchanged). -/
def ua.DataSource.into_raw (self : ua.DataSource) : UA_DataSource := self.raw

/-- Embeds `<DataSource as Clone>::clone`: builds a new wrapper holding a
table with the same read and write references (the `println!` diagnostic
has no effect on the value). -/
def ua.DataSource.clone (self : ua.DataSource) : ua.DataSource :=
  ⟨{ read := self.raw.read, write := self.raw.write }⟩

/-- C8: for every pair of optional native read/write callbacks,
constructing a raw-mode data source and extracting it again yields a
native table whose read field is exactly the given read callback and
whose write field is exactly the given write callback — the bridge
performs no translation on raw callbacks. -/
theorem dataSource_new_into_raw_roundtrip (r w : Option Nat) :
    (ua.DataSource.new r w).into_raw = { read := r, write := w } := rfl

/-- C9: cloning a raw-mode data source copies exactly the two function
references — the clone's read and write references equal those of the
original, the clone carries nothing besides them (it equals the wrapper
rebuilt from just those two references), and the original is left
unchanged. -/
theorem dataSource_clone_copies_references (d : ua.DataSource) :
    (ua.DataSource.clone d).raw.read = d.raw.read ∧
    (ua.DataSource.clone d).raw.write = d.raw.write ∧
    ua.DataSource.clone d = ua.DataSource.new d.raw.read d.raw.write :=
  ⟨rfl, rfl, rfl⟩

/-! ## The read-only `ControllerDataSource` example

Embeds `examples/cpu_temperature_data_source.rs`: a trait-dispatched
data source whose `read` publishes a simulated CPU temperature and whose
`write` always fails with NotSupported. The mutable state is the
implementor's `temperature` string together with the two process-global
variables `CPU_TEMPERATURE` and `INCREASING`; native `f32` arithmetic is
modelled over `ℚ`. -/

/-- Modelled from the spec: the DataSource operation error type of the
trait-dispatch bridge (its module is not among the provided sources) —
NotSupported (write on read-only source), InternalError (unexpected
failure during value construction), or a caller-supplied native status
code. -/
inductive DataSourceError where
  | notSupported
  | internalError
  | statusCode (code : Nat)
  deriving DecidableEq, Repr

/-- The implementor's own state: the `temperature` string field. -/
structure ControllerDataSource where
  temperature : String
  deriving DecidableEq, Repr

/-- The process-global mutable state `CPU_TEMPERATURE` / `INCREASING`
used by `read_cpu_temperature`. -/
structure GlobalTemperatureState where
  cpu_temperature : ℚ
  increasing : Bool
  deriving DecidableEq, Repr

/-- Embeds `read_cpu_temperature`: clamps the direction at 48.5 / 38.5
and moves the global temperature by 0.1 in the current direction,
returning the new reading and the updated globals. -/
def read_cpu_temperature (g : GlobalTemperatureState) :
    ℚ × GlobalTemperatureState :=
  let increasing :=
    if g.cpu_temperature ≥ 48.5 then false
    else if g.cpu_temperature ≤ 38.5 then true
    else g.increasing
  let t :=
    if increasing then g.cpu_temperature + 0.1
    else g.cpu_temperature - 0.1
  (t, ⟨t, increasing⟩)

/-- Modelled from the spec: `ua::String::new` (its module is not among
the provided sources) fails exactly when the value cannot be represented
at the FFI boundary because it contains an embedded NUL terminator
byte. -/
def uaStringNew (s : String) : Except Unit String :=
  if s.contains (Char.ofNat 0) then Except.error () else Except.ok s

/-- Request-scoped read context: holds the variant published through
`set_variant`, here the scalar string value. -/
structure DataSourceReadContext where
  value : Option String
  deriving DecidableEq, Repr

/-- Request-scoped write context: exposes the incoming value. -/
structure DataSourceWriteContext where
  value : Option String
  deriving DecidableEq, Repr

/-- Embeds `ControllerDataSource::read`: reads the next simulated CPU
temperature (mutating the globals), stores its text in the implementor's
`temperature` field, then publishes it as a scalar string variant —
mapping a NUL-byte representation failure to the BadInternalError status
code. Returns the result together with the updated implementor state,
globals, and context. -/
def ControllerDataSource.read (self : ControllerDataSource)
    (g : GlobalTemperatureState) (ctx : DataSourceReadContext) :
    Except DataSourceError Unit × ControllerDataSource ×
      GlobalTemperatureState × DataSourceReadContext :=
  let r := read_cpu_temperature g
  let self' : ControllerDataSource := ⟨toString r.1⟩
  match uaStringNew self'.temperature with
  | Except.error _ =>
    (Except.error (DataSourceError.statusCode UA_STATUSCODE_BADINTERNALERROR),
     self', r.2, ctx)
  | Except.ok s => (Except.ok (), self', r.2, { value := some s })

/-- Embeds `ControllerDataSource::write`: prints a diagnostic and returns
`Err(DataSourceError::NotSupported)`; no state is touched. -/
def ControllerDataSource.write (self : ControllerDataSource)
    (g : GlobalTemperatureState) (ctx : DataSourceWriteContext) :
    Except DataSourceError Unit × ControllerDataSource ×
      GlobalTemperatureState × DataSourceWriteContext :=
  (Except.error DataSourceError.notSupported, self, g, ctx)

/-- C1: every write invocation on the read-only data source returns the
NotSupported error, deterministically in every state, and leaves the
implementor's field, the process globals, and the context unchanged — so
a subsequent read invocation observes exactly the same state (and hence
the same result) as a read before the write attempt. -/
theorem controller_write_not_supported_state_unchanged
    (self : ControllerDataSource) (g : GlobalTemperatureState)
    (wctx : DataSourceWriteContext) (rctx : DataSourceReadContext) :
    (ControllerDataSource.write self g wctx).1 =
      Except.error DataSourceError.notSupported ∧
    (ControllerDataSource.write self g wctx).2.1 = self ∧
    (ControllerDataSource.write self g wctx).2.2.1 = g ∧
    (ControllerDataSource.write self g wctx).2.2.2 = wctx ∧
    ControllerDataSource.read (ControllerDataSource.write self g wctx).2.1
        (ControllerDataSource.write self g wctx).2.2.1 rctx =
      ControllerDataSource.read self g rctx :=
  ⟨rfl, rfl, rfl, rfl, rfl⟩

end Open62541
